import Mathlib

/-!
Verification development for the vid_to_gif web application (src/app.py):
a Flask service that accepts an uploaded video, shells out to ffmpeg to
produce an animated GIF, publishes a preview symlink, and purges all files
after download.  The Python source is shallowly embedded below: pure
helpers become Lean functions, the filesystem becomes explicit list-valued
state, Python floats become rationals, and raising code returns Except.
-/

/-! ### Python primitive helpers

Models of the Python builtins the handler relies on.  `int()` and
`float()` are modelled for sign plus decimal-digit literals (the forms the
upload form is concerned with); whitespace trimming, underscores in
numeric literals, scientific notation and inf/nan are not modelled.
-/

/-- Numeric value of a decimal digit character. -/
def charDigit (c : Char) : Nat := c.toNat - 48

/-- Value of a list of decimal digit characters read most-significant first. -/
def digitsVal (l : List Char) : Nat := l.foldl (fun a c => 10 * a + charDigit c) 0

/-- Model of Python `int(s)`: optional sign followed by a nonempty run of
digits; any other shape raises ValueError, modelled as `none`. -/
def pyInt (s : String) : Option Int :=
  let signBody : Int × List Char :=
    match s.data with
    | '-' :: rest => (-1, rest)
    | '+' :: rest => (1, rest)
    | l => (1, l)
  if signBody.snd ≠ [] ∧ signBody.snd.all Char.isDigit then
    some (signBody.fst * (digitsVal signBody.snd : Int))
  else none

/-- Model of Python `float(s)` restricted to decimal literals:
optional sign, integer digits, optional dot and fraction digits, with at
least one digit overall; anything else raises ValueError (`none`). -/
def pyFloat (s : String) : Option ℚ :=
  let signBody : ℚ × List Char :=
    match s.data with
    | '-' :: rest => (-1, rest)
    | '+' :: rest => (1, rest)
    | l => (1, l)
  let intPart := signBody.snd.takeWhile Char.isDigit
  let rest := signBody.snd.drop intPart.length
  match rest with
  | [] => if intPart ≠ [] then some (signBody.fst * (digitsVal intPart : ℚ)) else none
  | '.' :: frac =>
    if frac.all Char.isDigit ∧ (intPart ≠ [] ∨ frac ≠ []) then
      some (signBody.fst *
        ((digitsVal intPart : ℚ) + (digitsVal frac : ℚ) / (10 ^ frac.length : ℚ)))
    else none
  | _ => none

/-- Model of Python `s.isdigit()`: nonempty and all decimal digits. -/
def py_isdigit (s : String) : Bool := s ≠ "" && s.data.all Char.isDigit

/-- Model of the Python substring test `c in s` for the single character
dot, as used by `allowed_file`. -/
def has_dot (s : String) : Bool := s.data.any (fun c => c == '.')

/-- Model of Python `s.lower()` as a character-wise map (the extensions
involved are ASCII). -/
def str_lower (s : String) : String := String.mk (s.data.map Char.toLower)

/-- Model of `filename.rsplit(".", 1)[1]` when a dot is present: the text
after the last dot (for a dot-free string it returns the whole string,
but `allowed_file` only consults it under the dot guard). -/
def ext_after_last_dot (s : String) : String :=
  String.mk ((s.data.reverse.takeWhile (fun c => c != '.')).reverse)

/-- Model of `os.path.splitext(fn)[0]` for a path without separators:
everything before the last dot, except that a basename consisting of
leading dots only has no extension. -/
def splitext_root (fn : String) : String :=
  let cs := fn.data
  let suffix := cs.reverse.takeWhile (fun c => c != '.')
  if suffix.length = cs.length then fn
  else
    let stem := cs.take (cs.length - suffix.length - 1)
    if stem.all (fun c => c == '.') then fn else String.mk stem

/-- Model of `os.path.basename` on POSIX: the text after the last slash. -/
def os_path_basename (s : String) : String :=
  String.mk ((s.data.reverse.takeWhile (fun c => c != '/')).reverse)

/-! ### Extension allow-list (src/app.py lines 9, 24-25) -/

/-- The `ALLOWED_EXTENSIONS` set from src/app.py line 9.  Python iterates a
set in an unspecified order; the model fixes the source literal order. -/
def ALLOWED_EXTENSIONS : List String :=
  ["webm", "mp4", "avi", "mov", "mkv", "flv", "wmv", "mpeg"]

/-- `allowed_file` from src/app.py lines 24-25:
dot present, and the lower-cased text after the last dot is allow-listed. -/
def allowed_file (filename : String) : Bool :=
  has_dot filename && ALLOWED_EXTENSIONS.contains (str_lower (ext_after_last_dot filename))

/-! ### Directory state and the retention sweeper (src/app.py lines 28-38) -/

/-- What a directory entry stats as.  `liveLink` is a symlink whose target
is an existing regular file; `danglingLink` is a symlink whose target is
gone; `subdir` is a directory. -/
inductive EntryKind
  | file
  | liveLink
  | danglingLink
  | subdir
deriving DecidableEq

/-- One entry of a managed directory: its name, what it stats as, and the
last-modified time `os.path.getmtime` reports (which follows symlinks). -/
structure DirEntry where
  name : String
  kind : EntryKind
  mtime : ℚ
deriving DecidableEq

/-- Model of `os.path.isfile`, which follows symlinks: true for a regular
file and for a symlink resolving to a regular file. -/
def os_isfile (k : EntryKind) : Bool :=
  match k with
  | EntryKind.file => true
  | EntryKind.liveLink => true
  | _ => false

/-- `clean_old_files` from src/app.py lines 28-38: remove every entry of
the directory that stats as a regular file and whose age strictly exceeds
`max_age_hours * 3600` seconds.  Removal failures are printed and skipped
in the source; the model keeps the successful-removal behaviour. -/
def clean_old_files (current_time : ℚ) (directory : List DirEntry)
    (max_age_hours : ℚ) : List DirEntry :=
  directory.filter
    (fun f => !(os_isfile f.kind && decide (current_time - f.mtime > max_age_hours * 3600)))

/-! ### The ffmpeg invocation (src/app.py lines 53-91) -/

/-- One token of the ffmpeg argument vector.  Literal tokens are kept as
strings; tokens produced by `str()` of a numeric value carry the value. -/
inductive FFArg
  | lit (s : String)
  | timeArg (t : ℚ)
  | intArg (n : Int)
  | scaleArg (w : Nat)
deriving DecidableEq

/-- The `-ss` block of src/app.py lines 61-63: seek offset when a start
time was given. -/
def start_args (start_time : Option ℚ) : List FFArg :=
  match start_time with
  | some s => [FFArg.lit "-ss", FFArg.timeArg s]
  | none => []

/-- The trim block of src/app.py lines 65-70: with both bounds, `-t` with
the duration `end_time - start_time`; with only an end bound, `-to` with
the end offset; otherwise nothing. -/
def trim_args (start_time end_time : Option ℚ) : List FFArg :=
  match end_time, start_time with
  | some e, some s => [FFArg.lit "-t", FFArg.timeArg (e - s)]
  | some e, none => [FFArg.lit "-to", FFArg.timeArg e]
  | none, _ => []

/-- The scale-filter block of src/app.py lines 75-77. -/
def width_args (width : Option Nat) : List FFArg :=
  match width with
  | some w => [FFArg.lit "-vf", FFArg.scaleArg w]
  | none => []

/-- The command construction of `convert_video_to_gif`
(src/app.py lines 58-83), token for token. -/
def convert_cmd (input_path output_path : String) (start_time end_time : Option ℚ)
    (fps : Int) (width : Option Nat) : List FFArg :=
  [FFArg.lit "ffmpeg", FFArg.lit "-i", FFArg.lit input_path]
  ++ start_args start_time
  ++ trim_args start_time end_time
  ++ [FFArg.lit "-r", FFArg.intArg fps]
  ++ width_args width
  ++ [FFArg.lit "-f", FFArg.lit "gif", FFArg.lit output_path]

/-- `convert_video_to_gif` from src/app.py lines 53-91.  The external
encoder is a parameter: `none` models exit status 0, `some stderr` a
non-zero exit with that diagnostic text, turned into the exception
message `FFmpeg error: ...` exactly as line 89 does. -/
def convert_video_to_gif (run_ffmpeg : List FFArg → Option String)
    (input_path output_path : String) (start_time end_time : Option ℚ)
    (fps : Int) (width : Option Nat) : Except String Bool :=
  match run_ffmpeg (convert_cmd input_path output_path start_time end_time fps width) with
  | some stderr => Except.error ("FFmpeg error: " ++ stderr)
  | none => Except.ok true

/-! ### Session state (the six keys used by src/app.py) -/

/-- The six session keys the application reads and writes
(src/app.py lines 176-183, 231-233, 248-253), each `none` when absent. -/
structure SessionState where
  gif_filename : Option String
  original_filename : Option String
  gif_size : Option ℚ
  input_path : Option String
  gif_path : Option String
  static_gif_path : Option String
deriving DecidableEq

/-- The session after all six `session.pop` calls of lines 248-253. -/
def SessionState.cleared : SessionState := ⟨none, none, none, none, none, none⟩

/-! ### Flat filesystem model for the download-time cleanup
(src/app.py lines 41-50 and 220-258)

The cleanup closure addresses files by full path across all three
directories, so its state is a flat list of path/kind pairs plus the set
of paths on which `os.remove`/`os.unlink` would raise (permission error
and the like). -/

/-- Filesystem as the cleanup code sees it: entries keyed by full path,
plus the paths whose removal the environment makes fail. -/
structure FS where
  entries : List (String × EntryKind)
  failing : List String
deriving DecidableEq

/-- Kind of the entry at a path, if any. -/
def FS.lookup (fs : FS) (p : String) : Option EntryKind :=
  (fs.entries.find? (fun e => e.fst == p)).map Prod.snd

/-- Model of `os.path.exists`: true for files, directories and symlinks
whose target exists; false for a dangling symlink or a missing path. -/
def os_path_exists (fs : FS) (p : String) : Bool :=
  match fs.lookup p with
  | some EntryKind.file => true
  | some EntryKind.liveLink => true
  | some EntryKind.subdir => true
  | _ => false

/-- Model of `os.path.islink`: true for any symlink, dangling or not. -/
def os_path_islink (fs : FS) (p : String) : Bool :=
  match fs.lookup p with
  | some EntryKind.liveLink => true
  | some EntryKind.danglingLink => true
  | _ => false

/-- Drop every entry at path `p`. -/
def FS.erase (fs : FS) (p : String) : FS :=
  ⟨fs.entries.filter (fun e => e.fst != p), fs.failing⟩

/-- Model of `os.remove` / `os.unlink`: raises on an environment-failing
path, on a directory, and on a missing path; otherwise removes the entry
(for a symlink it removes the link itself). -/
def os_remove (fs : FS) (p : String) : Except String FS :=
  if fs.failing.contains p then Except.error "OSError"
  else
    match fs.lookup p with
    | some EntryKind.subdir => Except.error "IsADirectoryError"
    | some _ => Except.ok (fs.erase p)
    | none => Except.error "FileNotFoundError"

/-- `delete_file_safely` from src/app.py lines 41-50: delete the path if
`os.path.exists` reports it, swallowing any exception; returns the new
filesystem and the success flag. -/
def delete_file_safely (fs : FS) (p : String) : FS × Bool :=
  if os_path_exists fs p then
    match os_remove fs p with
    | Except.ok fs2 => (fs2, true)
    | Except.error _ => (fs, false)
  else (fs, false)

/-- The filesystem after the guarded `delete_file_safely(input_path)` call
of src/app.py lines 236-237. -/
def cleanup_stage1 (s : SessionState) (fs : FS) : FS :=
  match s.input_path with
  | some p => (delete_file_safely fs p).fst
  | none => fs

/-- The filesystem after the first two guarded deletions
(src/app.py lines 236-240): input path, then gif path. -/
def cleanup_stage (s : SessionState) (fs : FS) : FS :=
  match s.gif_path with
  | some p => (delete_file_safely (cleanup_stage1 s fs) p).fst
  | none => cleanup_stage1 s fs

/-- The `cleanup_after_download` closure of src/app.py lines 228-256:
delete the three session-recorded paths — input and gif via
`delete_file_safely`, the static path via bare `os.unlink` when it is a
symlink — then pop all six session keys.  The whole body sits in a
try/except, so when `os.unlink` raises, the pops are skipped and the
session survives with the state reached so far. -/
def cleanup_after_download (s : SessionState) (fs : FS) : SessionState × FS :=
  match s.static_gif_path with
  | some p =>
    if os_path_islink (cleanup_stage s fs) p then
      match os_remove (cleanup_stage s fs) p with
      | Except.ok fs3 => (SessionState.cleared, fs3)
      | Except.error _ => (s, cleanup_stage s fs)
    else (SessionState.cleared, (delete_file_safely (cleanup_stage s fs) p).fst)
  | none => (SessionState.cleared, cleanup_stage s fs)

/-! ### Preview publication (src/app.py lines 166-173)

The upload handler keeps its three directories as separate entry lists,
names being directory-local; removal failures are not modelled on this
path (the upload-side claims do not involve them). -/

/-- `os.path.exists` over a single directory listing. -/
def dir_path_exists (d : List DirEntry) (name : String) : Bool :=
  d.any (fun e => e.name == name && e.kind != EntryKind.danglingLink)

/-- True when some entry carries the name, whatever it stats as. -/
def dir_has (d : List DirEntry) (name : String) : Bool :=
  d.any (fun e => e.name == name)

/-- Drop every entry with the given name. -/
def dir_remove (d : List DirEntry) (name : String) : List DirEntry :=
  d.filter (fun e => e.name != name)

/-- `os.remove` over a single directory listing: raises on a directory or
a missing name, otherwise removes the entry (links included). -/
def dir_os_remove (d : List DirEntry) (name : String) : Except String (List DirEntry) :=
  match d.find? (fun e => e.name == name) with
  | none => Except.error "FileNotFoundError"
  | some e =>
    if e.kind = EntryKind.subdir then Except.error "IsADirectoryError"
    else Except.ok (dir_remove d name)

/-- `delete_file_safely` acting inside one directory listing. -/
def dir_delete_file_safely (d : List DirEntry) (name : String) : List DirEntry × Bool :=
  if dir_path_exists d name then
    match dir_os_remove d name with
    | Except.ok d2 => (d2, true)
    | Except.error _ => (d, false)
  else (d, false)

/-- The symlink-publication block of src/app.py lines 166-173: remove a
prior entry at the target name only when `os.path.exists` reports it,
then `os.symlink`, which raises FileExistsError if any entry — notably a
dangling link, invisible to the exists check — still occupies the name.
The created link aliases the just-generated gif, so it stats as a live
link with the gif's modification time. -/
def publish_preview (d : List DirEntry) (name : String) (mtime : ℚ) :
    Except String (List DirEntry) :=
  match (if dir_path_exists d name then dir_os_remove d name else Except.ok d) with
  | Except.error exc => Except.error exc
  | Except.ok d1 =>
    if dir_has d1 name then Except.error "FileExistsError"
    else Except.ok (d1 ++ [⟨name, EntryKind.liveLink, mtime⟩])

/-! ### The upload handler, POST branch (src/app.py lines 94-200) -/

/-- The parts of a POST request the handler consults: whether the form
carries a `video` file part, the submitted filename (empty when the user
selected nothing), and the four optional text form fields. -/
structure UploadRequest where
  hasVideoField : Bool
  filename : String
  fps_field : Option String
  width_field : Option String
  start_time_field : Option String
  end_time_field : Option String

/-- The environment of one request: the wall clock (`int(time.time())`
for naming, `time.time()` for mtimes), the `secure_filename`
collaborator, the external encoder, and the size `os.path.getsize`
reports for the generated gif. -/
structure UploadEnv where
  timestamp : Nat
  now : ℚ
  sanitize : String → String
  run_ffmpeg : List FFArg → Option String
  artifact_size : ℚ

/-- Server state the handler touches: the three managed directory
listings and the per-browser session. -/
structure AppState where
  uploads : List DirEntry
  gifs : List DirEntry
  static_gifs : List DirEntry
  sess : SessionState
deriving DecidableEq

/-- How the handler answers: re-render on GET, flash-and-redirect back to
the form, redirect to the result view, or an exception escaping the
handler (Flask turns it into a 500 response; the process survives). -/
inductive UploadResponse
  | redirect_self (flash_msg : String)
  | redirect_result
  | raised (exc : String)
deriving DecidableEq

/-- The eager pre-upload sweep of src/app.py lines 98-100: all three
directories cleaned with the default 24-hour threshold. -/
def sweep_all (now : ℚ) (st : AppState) : AppState :=
  { st with
    uploads := clean_old_files now st.uploads 24
    gifs := clean_old_files now st.gifs 24
    static_gifs := clean_old_files now st.static_gifs 24 }

/-- The `start_time`/`end_time` parsing of src/app.py lines 124-140:
each field is `float`-parsed when nonempty, `None` otherwise, and a
ValueError from either parse aborts with the flash message (`none`). -/
def parse_times (start_s end_s : String) : Option (Option ℚ × Option ℚ) :=
  match (if start_s = "" then some none else (pyFloat start_s).map some) with
  | none => none
  | some st =>
    match (if end_s = "" then some none else (pyFloat end_s).map some) with
    | none => none
    | some en => some (st, en)

/-- The stored filename of src/app.py line 144:
timestamp, underscore, sanitized original name. -/
def job_filename (env : UploadEnv) (req : UploadRequest) : String :=
  toString env.timestamp ++ "_" ++ env.sanitize req.filename

/-- The POST branch of `upload_file` (src/app.py lines 96-198), step for
step: sweep, file-part and filename checks, extension allow-list, fps
`int()` parse (uncaught ValueError modelled as `raised`), width digit
check, time parsing, save, conversion, preview publication, session
population.  The conversion try/except catches both the encoder failure
and the symlink failure, deleting the raw upload and flashing
`Conversion failed: ...` in either case. -/
def upload_file_post (env : UploadEnv) (req : UploadRequest) (st : AppState) :
    UploadResponse × AppState :=
  let st := sweep_all env.now st
  if req.hasVideoField = false then (UploadResponse.redirect_self "No file part", st)
  else if req.filename = "" then (UploadResponse.redirect_self "No selected file", st)
  else if allowed_file req.filename then
    match pyInt (req.fps_field.getD "10") with
    | none => (UploadResponse.raised "ValueError", st)
    | some fps =>
      let wS := req.width_field.getD ""
      let width : Option Nat :=
        if wS ≠ "" && py_isdigit wS then some (digitsVal wS.data) else none
      match parse_times (req.start_time_field.getD "") (req.end_time_field.getD "") with
      | none =>
        (UploadResponse.redirect_self "Invalid time format. Please use seconds (e.g., 10.5)", st)
      | some times =>
        let filename := job_filename env req
        let input_path := "uploads/" ++ filename
        let st := { st with uploads := st.uploads ++ [(⟨filename, EntryKind.file, env.now⟩ : DirEntry)] }
        let gif_filename := splitext_root filename ++ ".gif"
        let gif_path := "gifs/" ++ gif_filename
        let static_gif_path := "static/gifs/" ++ gif_filename
        match convert_video_to_gif env.run_ffmpeg input_path gif_path
            times.fst times.snd fps width with
        | Except.error msg =>
          (UploadResponse.redirect_self ("Conversion failed: " ++ msg),
           { st with uploads := (dir_delete_file_safely st.uploads filename).fst })
        | Except.ok _ =>
          let st := { st with gifs := st.gifs ++ [(⟨gif_filename, EntryKind.file, env.now⟩ : DirEntry)] }
          match publish_preview st.static_gifs gif_filename env.now with
          | Except.error exc =>
            (UploadResponse.redirect_self ("Conversion failed: " ++ exc),
             { st with uploads := (dir_delete_file_safely st.uploads filename).fst })
          | Except.ok newStatic =>
            (UploadResponse.redirect_result,
             { st with
               static_gifs := newStatic
               sess :=
                 { gif_filename := some gif_filename
                   original_filename := some (os_path_basename req.filename)
                   gif_size := some (env.artifact_size / (1024 * 1024))
                   input_path := some input_path
                   gif_path := some gif_path
                   static_gif_path := some static_gif_path } })
  else
    (UploadResponse.redirect_self
      ("Invalid file type. Allowed types: " ++ String.intercalate ", " ALLOWED_EXTENSIONS), st)

/-! ### Helper lemmas -/

/-- Membership in a sweep result: kept iff present before and not both a
stat-file and strictly over age. -/
theorem mem_clean_old_files (now : ℚ) (d : List DirEntry) (mah : ℚ) (f : DirEntry) :
    f ∈ clean_old_files now d mah ↔
      f ∈ d ∧ ¬(os_isfile f.kind = true ∧ now - f.mtime > mah * 3600) := by
  simp [clean_old_files, List.mem_filter, not_and, -not_lt, imp_iff_not_or]

/-- The sweep only ever removes entries. -/
theorem clean_old_files_subset (now : ℚ) (d : List DirEntry) (mah : ℚ) (f : DirEntry)
    (h : f ∈ clean_old_files now d mah) : f ∈ d :=
  List.mem_filter.mp h |>.left

/-- takeWhile walks through a first block that wholly satisfies the
predicate. -/
theorem takeWhile_append_of_all {p : Char → Bool} {l1 l2 : List Char} (h : l1.all p = true) :
    (l1 ++ l2).takeWhile p = l1 ++ l2.takeWhile p := by
  induction l1 with
  | nil => rfl
  | cons a l ih =>
    simp only [List.all_cons, Bool.and_eq_true] at h
    simp [List.takeWhile_cons, h.1, ih h.2]

/-- Appending a dot and a dot-free extension makes that extension the
text after the last dot. -/
theorem ext_after_last_dot_append (fn e : String) (h : e.data.all (fun c => c != '.') = true) :
    ext_after_last_dot (fn ++ ("." ++ e)) = e := by
  unfold ext_after_last_dot
  have hd : (fn ++ ("." ++ e)).data = fn.data ++ ('.' :: e.data) := by
    simp [String.data_append]
  rw [hd, List.reverse_append]
  have hrev : ('.' :: e.data).reverse = e.data.reverse ++ ['.'] := by
    simp
  rw [hrev, List.append_assoc, takeWhile_append_of_all (by simpa using h)]
  simp [List.takeWhile_cons]

/-- No entry survives `dir_remove` under its removed name. -/
theorem dir_has_dir_remove (d : List DirEntry) (name : String) :
    dir_has (dir_remove d name) name = false := by
  simp [dir_has, dir_remove, List.any_eq_true, List.mem_filter]

/-- When nothing in a directory carries a name, removing that name is a
no-op. -/
theorem dir_remove_of_not_has (d : List DirEntry) (name : String)
    (h : ∀ e ∈ d, e.name ≠ name) : dir_remove d name = d := by
  rw [dir_remove, List.filter_eq_self]
  intro e he
  simpa using h e he

/-! ### Claim theorems -/

/-- Claim C1: with both trim bounds given, the ffmpeg invocation carries
a duration of `end_time - start_time` after `-t` and the requested frame
rate after `-r`; at start 2.0, end 5.0, fps 12 the tokens are `-t 3` and
`-r 12`; with only an end bound the window is passed as an end offset
after `-to`, not as a duration. -/
theorem convert_cmd_trim_window :
    (∀ (inp outp : String) (s e : ℚ) (fps : Int) (w : Option Nat),
      convert_cmd inp outp (some s) (some e) fps w =
        [FFArg.lit "ffmpeg", FFArg.lit "-i", FFArg.lit inp, FFArg.lit "-ss", FFArg.timeArg s,
         FFArg.lit "-t", FFArg.timeArg (e - s), FFArg.lit "-r", FFArg.intArg fps] ++
        width_args w ++
        [FFArg.lit "-f", FFArg.lit "gif", FFArg.lit outp])
    ∧ (∀ (inp outp : String) (e : ℚ) (fps : Int) (w : Option Nat),
      convert_cmd inp outp none (some e) fps w =
        [FFArg.lit "ffmpeg", FFArg.lit "-i", FFArg.lit inp,
         FFArg.lit "-to", FFArg.timeArg e, FFArg.lit "-r", FFArg.intArg fps] ++
        width_args w ++
        [FFArg.lit "-f", FFArg.lit "gif", FFArg.lit outp])
    ∧ convert_cmd "in.mp4" "out.gif" (some 2) (some 5) 12 none =
        [FFArg.lit "ffmpeg", FFArg.lit "-i", FFArg.lit "in.mp4", FFArg.lit "-ss",
         FFArg.timeArg 2, FFArg.lit "-t", FFArg.timeArg 3, FFArg.lit "-r", FFArg.intArg 12,
         FFArg.lit "-f", FFArg.lit "gif", FFArg.lit "out.gif"] := by
  refine ⟨fun inp outp s e fps w => ?_, fun inp outp e fps w => ?_,
    by norm_num [convert_cmd, start_args, trim_args, width_args]⟩ <;> cases w <;> rfl

/-- Claim C2: the sweep keeps an entry iff it was there and is not a
stat-regular-file of age strictly over the threshold; on ages
half an hour, two hours and twenty-five hours with a 24-hour threshold
exactly the twenty-five-hour file goes; an empty directory is untouched. -/
theorem clean_old_files_exact :
    (∀ (now : ℚ) (d : List DirEntry) (mah : ℚ) (f : DirEntry),
      f ∈ clean_old_files now d mah ↔
        f ∈ d ∧ ¬(os_isfile f.kind = true ∧ now - f.mtime > mah * 3600))
    ∧ clean_old_files 100000
        [⟨"half_hour.mp4", EntryKind.file, 98200⟩,
         ⟨"two_hours.mp4", EntryKind.file, 92800⟩,
         ⟨"day_old.mp4", EntryKind.file, 10000⟩] 24 =
        [⟨"half_hour.mp4", EntryKind.file, 98200⟩,
         ⟨"two_hours.mp4", EntryKind.file, 92800⟩]
    ∧ ∀ (now mah : ℚ), clean_old_files now [] mah = [] :=
  ⟨mem_clean_old_files, by norm_num [clean_old_files, List.filter, os_isfile], fun _ _ => rfl⟩

/-- Claim C6, counterexample: a parameter set with fps 0, width 0 and
end_time 2 before start_time 5 is not rejected — the encoder is invoked
with those very values (duration -3) and the conversion reports success
when the encoder exits 0. -/
theorem convert_no_validation_cex :
    convert_video_to_gif (fun _ => none) "in.mp4" "out.gif" (some 5) (some 2) 0 (some 0) =
      Except.ok true
    ∧ convert_cmd "in.mp4" "out.gif" (some 5) (some 2) 0 (some 0) =
        [FFArg.lit "ffmpeg", FFArg.lit "-i", FFArg.lit "in.mp4", FFArg.lit "-ss",
         FFArg.timeArg 5, FFArg.lit "-t", FFArg.timeArg (-3), FFArg.lit "-r", FFArg.intArg 0,
         FFArg.lit "-vf", FFArg.scaleArg 0, FFArg.lit "-f", FFArg.lit "gif",
         FFArg.lit "out.gif"] :=
  ⟨rfl, by norm_num [convert_cmd, start_args, trim_args, width_args]⟩

/-- Claim C6, amended: the conversion operation performs no parameter
validation at all — every parameter set, including non-positive fps,
zero width and an inverted time window, is handed verbatim to the
external encoder (the fps value always appears in the argument vector)
and the call succeeds whenever the encoder exits 0. -/
theorem convert_no_validation (inp outp : String) (s e : Option ℚ) (fps : Int)
    (w : Option Nat) :
    convert_video_to_gif (fun _ => none) inp outp s e fps w = Except.ok true
    ∧ FFArg.intArg fps ∈ convert_cmd inp outp s e fps w := by
  refine ⟨rfl, ?_⟩
  cases s <;> cases e <;> cases w <;> simp [convert_cmd, start_args, trim_args, width_args]

/-- Claim C9, counterexample: with a dangling preview link already at the
target name — exactly what a previously purged job leaves behind —
publication does not remove it and fails with FileExistsError. -/
theorem publish_preview_dangling_cex :
    publish_preview [⟨"1700000000_clip.gif", EntryKind.danglingLink, 0⟩]
      "1700000000_clip.gif" 5 = Except.error "FileExistsError" := rfl

/-- Claim C9, amended: a pre-existing entry at the target name is removed
before the link is created only when `os.path.exists` reports it; when
every entry at the name is a regular file or a live link, publication
replaces it and succeeds, but a dangling link at the name survives the
exists-check and makes publication fail (previous theorem). -/
theorem publish_preview_replaces_existing (d : List DirEntry) (name : String) (t : ℚ)
    (h : ∀ e ∈ d, e.name = name →
      e.kind = EntryKind.file ∨ e.kind = EntryKind.liveLink) :
    publish_preview d name t =
      Except.ok (dir_remove d name ++ [⟨name, EntryKind.liveLink, t⟩]) := by
  unfold publish_preview
  by_cases hex : dir_path_exists d name = true
  · rw [if_pos hex]
    obtain ⟨e0, he0mem, he0⟩ := by simpa [dir_path_exists, List.any_eq_true] using hex
    have hfind : ∃ e, d.find? (fun e => e.name == name) = some e := by
      have : (d.find? (fun e => e.name == name)).isSome := by
        rw [List.find?_isSome]
        exact ⟨e0, he0mem, by simpa using he0.1⟩
      exact Option.isSome_iff_exists.mp this
    obtain ⟨e1, he1⟩ := hfind
    have he1name : e1.name = name := by
      have := List.find?_some he1
      simpa using this
    have he1mem : e1 ∈ d := List.mem_of_find?_eq_some he1
    have hkind : e1.kind ≠ EntryKind.subdir := by
      rcases h e1 he1mem he1name with hk | hk <;> simp [hk]
    rw [dir_os_remove, he1]
    simp [hkind, dir_has_dir_remove]
  · rw [if_neg hex]
    have hnone : ∀ e ∈ d, e.name ≠ name := by
      intro e he hename
      rcases h e he hename with hk | hk <;>
        exact hex (by
          simp only [dir_path_exists, List.any_eq_true]
          exact ⟨e, he, by simp [hename, hk]⟩)
    have hhas : dir_has d name = false := by
      simp only [dir_has, List.any_eq_false]
      intro e he
      simpa using hnone e he
    simp [hhas, dir_remove_of_not_has d name hnone]

/-- Witness for claim C9's amended theorem: replacing a live preview link
at the same name succeeds and leaves exactly the fresh link. -/
theorem publish_preview_replaces_existing_witness :
    publish_preview [⟨"1700000000_clip.gif", EntryKind.liveLink, 0⟩]
      "1700000000_clip.gif" 5 =
      Except.ok [⟨"1700000000_clip.gif", EntryKind.liveLink, 5⟩] := by
  have := publish_preview_replaces_existing
    [⟨"1700000000_clip.gif", EntryKind.liveLink, 0⟩] "1700000000_clip.gif" 5
    (by decide)
  simpa [dir_remove] using this

/-- Claim C10: the extension check rejects every dot-free filename,
accepts an upper-case `.MP4` suffix exactly as it accepts `.mp4`
(both are accepted), and depends only on the dot test plus the text
after the last dot. -/
theorem allowed_file_case_and_last_component :
    (∀ fn : String, has_dot fn = false → allowed_file fn = false)
    ∧ (∀ fn : String, allowed_file (fn ++ ".MP4") = true ∧ allowed_file (fn ++ ".mp4") = true)
    ∧ (∀ f1 f2 : String, has_dot f1 = has_dot f2 →
        ext_after_last_dot f1 = ext_after_last_dot f2 →
        allowed_file f1 = allowed_file f2) := by
  refine ⟨fun fn h => ?_, fun fn => ?_, fun f1 f2 h1 h2 => ?_⟩
  · simp [allowed_file, h]
  · constructor
    · rw [show (".MP4" : String) = "." ++ "MP4" by rfl, ← String.append_assoc]
      rw [String.append_assoc]
      rw [allowed_file, ext_after_last_dot_append fn "MP4" (by decide)]
      have hd : has_dot (fn ++ ("." ++ "MP4")) = true := by
        simp [has_dot, String.data_append]
      rw [hd]
      decide
    · rw [show (".mp4" : String) = "." ++ "mp4" by rfl, ← String.append_assoc]
      rw [String.append_assoc]
      rw [allowed_file, ext_after_last_dot_append fn "mp4" (by decide)]
      have hd : has_dot (fn ++ ("." ++ "mp4")) = true := by
        simp [has_dot, String.data_append]
      rw [hd]
      decide
  · rw [allowed_file, allowed_file, h1, h2]

/-- Witness for claim C10: a dot-free name is refused, an upper-case
extension is accepted, and two names sharing dot-status and final
component get the same verdict. -/
theorem allowed_file_case_and_last_component_witness :
    allowed_file "clipmp4" = false
    ∧ allowed_file ("clip" ++ ".MP4") = true
    ∧ allowed_file "a.gifv" = allowed_file "b.gifv" :=
  ⟨allowed_file_case_and_last_component.1 "clipmp4" (by decide),
   (allowed_file_case_and_last_component.2.1 "clip").1,
   allowed_file_case_and_last_component.2.2 "a.gifv" "b.gifv" (by decide) (by decide)⟩

/-- `os_remove` either erases the path or reports an error. -/
theorem os_remove_cases (fs : FS) (p : String) :
    os_remove fs p = Except.ok (fs.erase p) ∨ ∃ m, os_remove fs p = Except.error m := by
  unfold os_remove
  split
  · right; exact ⟨_, rfl⟩
  · split
    · right; exact ⟨_, rfl⟩
    · left; rfl
    · right; exact ⟨_, rfl⟩

/-- `delete_file_safely` either leaves the filesystem alone (reporting
false) or erases exactly its path (reporting true). -/
theorem delete_file_safely_cases (fs : FS) (p : String) :
    delete_file_safely fs p = (fs, false) ∨ delete_file_safely fs p = (fs.erase p, true) := by
  unfold delete_file_safely
  split
  · rcases os_remove_cases fs p with h | ⟨m, h⟩
    · rw [h]; right; rfl
    · rw [h]; left; rfl
  · left; rfl

/-- Erasing keeps an entry only if it was there under a different path. -/
theorem mem_erase_entries (fs : FS) (p : String) (e : String × EntryKind)
    (h : e ∈ (fs.erase p).entries) : e ∈ fs.entries ∧ e.fst ≠ p := by
  simp only [FS.erase] at h
  have h2 := List.mem_filter.mp h
  exact ⟨h2.1, by simpa using h2.2⟩

/-- `delete_file_safely` never adds entries. -/
theorem mem_delete_file_safely (fs : FS) (p : String) (e : String × EntryKind)
    (h : e ∈ (delete_file_safely fs p).fst.entries) : e ∈ fs.entries := by
  rcases delete_file_safely_cases fs p with h2 | h2 <;> rw [h2] at h
  · exact h
  · exact (mem_erase_entries fs p e h).1

/-- `delete_file_safely` does not touch the failing set. -/
theorem delete_file_safely_failing (fs : FS) (p : String) :
    (delete_file_safely fs p).fst.failing = fs.failing := by
  rcases delete_file_safely_cases fs p with h | h
  · rw [h]
  · rw [h]; rfl

/-- The first cleanup deletion does not touch the failing set. -/
theorem cleanup_stage1_failing (s : SessionState) (fs : FS) :
    (cleanup_stage1 s fs).failing = fs.failing := by
  unfold cleanup_stage1
  cases s.input_path
  · rfl
  · exact delete_file_safely_failing _ _

/-- The first two cleanup deletions do not touch the failing set. -/
theorem cleanup_stage_failing (s : SessionState) (fs : FS) :
    (cleanup_stage s fs).failing = fs.failing := by
  unfold cleanup_stage
  cases s.gif_path
  · exact cleanup_stage1_failing s fs
  · rw [delete_file_safely_failing]
    exact cleanup_stage1_failing s fs

/-- The final cleanup step never adds entries beyond what the first two
deletions left. -/
theorem mem_cleanup_final (s : SessionState) (fs : FS) (e : String × EntryKind)
    (h : e ∈ (cleanup_after_download s fs).snd.entries) :
    e ∈ (cleanup_stage s fs).entries := by
  unfold cleanup_after_download at h
  cases hs : s.static_gif_path with
  | none => rw [hs] at h; exact h
  | some p =>
    rw [hs] at h
    dsimp only at h
    by_cases hl : os_path_islink (cleanup_stage s fs) p = true
    · rw [if_pos hl] at h
      rcases os_remove_cases (cleanup_stage s fs) p with h2 | ⟨m, h2⟩ <;> rw [h2] at h
      · exact (mem_erase_entries _ p e h).1
      · exact h
    · rw [if_neg hl] at h
      exact mem_delete_file_safely _ p e h

/-- Claim C3, counterexample: with session state lost (all keys absent)
and the artifact's sibling raw upload still present under its
timestamp-prefixed name, the purge phase deletes nothing at all — no
fallback scan of the upload directory happens. -/
theorem download_no_fallback_scan_cex :
    cleanup_after_download SessionState.cleared
      ⟨[("uploads/1700000000_clip.mp4", EntryKind.file),
        ("gifs/1700000000_clip.gif", EntryKind.file)], []⟩ =
      (SessionState.cleared,
       ⟨[("uploads/1700000000_clip.mp4", EntryKind.file),
         ("gifs/1700000000_clip.gif", EntryKind.file)], []⟩)
    ∧ ("uploads/1700000000_clip.mp4", EntryKind.file) ∈
      (cleanup_after_download SessionState.cleared
        ⟨[("uploads/1700000000_clip.mp4", EntryKind.file),
          ("gifs/1700000000_clip.gif", EntryKind.file)], []⟩).snd.entries :=
  ⟨rfl, by decide⟩

/-- Claim C3, amended: the purge phase deletes only the three
session-recorded paths; there is no filename-pattern fallback, so when
the session record is absent the handler deletes nothing and the
artifact's sibling raw upload survives (left to the retention sweeper). -/
theorem download_purge_session_paths_only (s : SessionState) (fs : FS)
    (h1 : s.input_path = none) (h2 : s.gif_path = none)
    (h3 : s.static_gif_path = none) :
    cleanup_after_download s fs = (SessionState.cleared, fs) := by
  unfold cleanup_after_download cleanup_stage cleanup_stage1
  rw [h1, h2, h3]

/-- Witness for claim C3's amended theorem. -/
theorem download_purge_session_paths_only_witness :
    cleanup_after_download SessionState.cleared
      ⟨[("gifs/orphan.gif", EntryKind.file)], []⟩ =
      (SessionState.cleared, ⟨[("gifs/orphan.gif", EntryKind.file)], []⟩) :=
  download_purge_session_paths_only SessionState.cleared
    ⟨[("gifs/orphan.gif", EntryKind.file)], []⟩ rfl rfl rfl

/-- Claim C4, counterexample: when the static preview path is a symlink
whose unlink raises, the exception skips every `session.pop`: after the
purge attempt the session still carries all job fields. -/
theorem cleanup_unlink_failure_keeps_session_cex :
    (cleanup_after_download
      ⟨some "1_c.gif", some "c.mp4", some 1, some "uploads/1_c.mp4",
       some "gifs/1_c.gif", some "static/gifs/1_c.gif"⟩
      ⟨[("uploads/1_c.mp4", EntryKind.file), ("gifs/1_c.gif", EntryKind.file),
        ("static/gifs/1_c.gif", EntryKind.liveLink)],
       ["static/gifs/1_c.gif"]⟩).fst =
      ⟨some "1_c.gif", some "c.mp4", some 1, some "uploads/1_c.mp4",
       some "gifs/1_c.gif", some "static/gifs/1_c.gif"⟩
    ∧ (⟨some "1_c.gif", some "c.mp4", some 1, some "uploads/1_c.mp4",
        some "gifs/1_c.gif", some "static/gifs/1_c.gif"⟩ : SessionState) ≠
      SessionState.cleared :=
  ⟨rfl, by decide⟩

/-- Claim C4, amended: the six session fields are cleared after the purge
attempt, and a swallowed deletion failure on the input path does not
prevent the gif-path deletion — except that when the static path is a
symlink whose unlink raises, the exception skips the session-clearing
pops and every field survives (previous theorem).  Part one: the session
is cleared whenever the static path is absent, not a link, or removable.
Part two: a gif path that stats as a regular file after the input-path
deletion and whose removal does not fail is gone from the final
filesystem, whatever happened to the other two paths. -/
theorem cleanup_clears_session_and_deletes_independently :
    (∀ (s : SessionState) (fs : FS),
      (∀ p, s.static_gif_path = some p →
        os_path_islink (cleanup_stage s fs) p = true →
        fs.failing.contains p = false) →
      (cleanup_after_download s fs).fst = SessionState.cleared)
    ∧ (∀ (s : SessionState) (fs : FS) (q : String),
      s.gif_path = some q →
      (cleanup_stage1 s fs).lookup q = some EntryKind.file →
      fs.failing.contains q = false →
      ((cleanup_after_download s fs).snd.entries.all (fun e => e.fst != q)) = true) := by
  constructor
  · intro s fs h
    unfold cleanup_after_download
    cases hs : s.static_gif_path with
    | none => rfl
    | some p =>
      dsimp only
      by_cases hl : os_path_islink (cleanup_stage s fs) p = true
      · rw [if_pos hl]
        have hfail : (cleanup_stage s fs).failing.contains p = false := by
          rw [cleanup_stage_failing]
          exact h p hs hl
        have hok : os_remove (cleanup_stage s fs) p =
            Except.ok ((cleanup_stage s fs).erase p) := by
          unfold os_remove
          rw [hfail]
          unfold os_path_islink at hl
          rcases hlk : (cleanup_stage s fs).lookup p with _ | k
          · rw [hlk] at hl; simp at hl
          · rw [hlk] at hl
            cases k <;> simp_all
        rw [hok]
      · rw [if_neg hl]
  · intro s fs q hq hlk hfail
    have hstage : cleanup_stage s fs = (delete_file_safely (cleanup_stage1 s fs) q).fst := by
      unfold cleanup_stage
      rw [hq]
    have hex : os_path_exists (cleanup_stage1 s fs) q = true := by
      unfold os_path_exists
      rw [hlk]
    have hfail1 : (cleanup_stage1 s fs).failing.contains q = false := by
      rw [cleanup_stage1_failing]
      exact hfail
    have hok : os_remove (cleanup_stage1 s fs) q =
        Except.ok ((cleanup_stage1 s fs).erase q) := by
      unfold os_remove
      rw [hfail1, hlk]
      rfl
    have hdel : delete_file_safely (cleanup_stage1 s fs) q =
        ((cleanup_stage1 s fs).erase q, true) := by
      unfold delete_file_safely
      rw [hex, hok]
      rfl
    have hgone : ∀ e ∈ (cleanup_stage s fs).entries, e.fst ≠ q := by
      intro e he
      rw [hstage, hdel] at he
      exact (mem_erase_entries _ q e he).2
    rw [List.all_eq_true]
    intro e he
    have := hgone e (mem_cleanup_final s fs e he)
    simpa using this

/-- Witness for claim C4's amended theorem: a concrete run clears the
session, and a gif file is removed even though the input-path removal is
made to fail. -/
theorem cleanup_clears_session_and_deletes_independently_witness :
    (cleanup_after_download
      ⟨some "1_w.gif", some "w.mp4", some 1, some "uploads/1_w.mp4",
       some "gifs/1_w.gif", none⟩
      ⟨[("uploads/1_w.mp4", EntryKind.file), ("gifs/1_w.gif", EntryKind.file)],
       ["uploads/1_w.mp4"]⟩).fst = SessionState.cleared
    ∧ ((cleanup_after_download
      ⟨some "1_w.gif", some "w.mp4", some 1, some "uploads/1_w.mp4",
       some "gifs/1_w.gif", none⟩
      ⟨[("uploads/1_w.mp4", EntryKind.file), ("gifs/1_w.gif", EntryKind.file)],
       ["uploads/1_w.mp4"]⟩).snd.entries.all (fun e => e.fst != "gifs/1_w.gif")) = true :=
  ⟨cleanup_clears_session_and_deletes_independently.1
    ⟨some "1_w.gif", some "w.mp4", some 1, some "uploads/1_w.mp4",
     some "gifs/1_w.gif", none⟩
    ⟨[("uploads/1_w.mp4", EntryKind.file), ("gifs/1_w.gif", EntryKind.file)],
     ["uploads/1_w.mp4"]⟩
    (fun p hp => Option.noConfusion hp),
   cleanup_clears_session_and_deletes_independently.2
    ⟨some "1_w.gif", some "w.mp4", some 1, some "uploads/1_w.mp4",
     some "gifs/1_w.gif", none⟩
    ⟨[("uploads/1_w.mp4", EntryKind.file), ("gifs/1_w.gif", EntryKind.file)],
     ["uploads/1_w.mp4"]⟩
    "gifs/1_w.gif" rfl (by decide) (by decide)⟩

/-- Deleting a freshly appended upload whose name is new to the directory
removes exactly that entry and succeeds. -/
theorem dir_delete_append_fresh (A : List DirEntry) (n : String) (t : ℚ)
    (h : ∀ e ∈ A, e.name ≠ n) :
    dir_delete_file_safely (A ++ [⟨n, EntryKind.file, t⟩]) n = (A, true) := by
  have hex : dir_path_exists (A ++ [⟨n, EntryKind.file, t⟩]) n = true := by
    simp [dir_path_exists, List.any_append]
  have hfindA : A.find? (fun e => e.name == n) = none := by
    rw [List.find?_eq_none]
    intro e he
    simpa using h e he
  have hfind : (A ++ [(⟨n, EntryKind.file, t⟩ : DirEntry)]).find?
      (fun e => e.name == n) = some (⟨n, EntryKind.file, t⟩ : DirEntry) := by
    rw [List.find?_append, hfindA]
    simp [List.find?_cons]
  have hrem : dir_remove (A ++ [⟨n, EntryKind.file, t⟩]) n = A := by
    rw [dir_remove, List.filter_append]
    have hA : A.filter (fun e => e.name != n) = A := by
      rw [List.filter_eq_self]
      intro e he
      simpa using h e he
    have hB : List.filter (fun e => e.name != n)
        [(⟨n, EntryKind.file, t⟩ : DirEntry)] = [] := by simp
    rw [hA, hB, List.append_nil]
  simp [dir_delete_file_safely, hex, dir_os_remove, hfindA, hfind, hrem]

/-- Claim C5: when the external encoder exits non-zero, the raw upload
just saved under the job filename is deleted again (the upload directory
ends exactly as the pre-request sweep left it), no job fields are written
to the session, and the user is re-prompted with a flash whose sole
error detail is the encoder's diagnostic text. -/
theorem conversion_failure_cleanup (env : UploadEnv) (req : UploadRequest) (st : AppState)
    (stderr : String) (fps : Int) (times : Option ℚ × Option ℚ)
    (h1 : req.hasVideoField = true) (h2 : req.filename ≠ "")
    (h3 : allowed_file req.filename = true)
    (h4 : pyInt (req.fps_field.getD "10") = some fps)
    (h5 : parse_times (req.start_time_field.getD "") (req.end_time_field.getD "") = some times)
    (h6 : ∀ c, env.run_ffmpeg c = some stderr)
    (h7 : ∀ e ∈ st.uploads, e.name ≠ job_filename env req) :
    (upload_file_post env req st).fst =
      UploadResponse.redirect_self ("Conversion failed: FFmpeg error: " ++ stderr)
    ∧ (upload_file_post env req st).snd.sess = st.sess
    ∧ (upload_file_post env req st).snd.uploads = clean_old_files env.now st.uploads 24 := by
  have h7s : ∀ e ∈ clean_old_files env.now st.uploads 24, e.name ≠ job_filename env req :=
    fun e he => h7 e (clean_old_files_subset env.now st.uploads 24 e he)
  have hdel := dir_delete_append_fresh (clean_old_files env.now st.uploads 24)
    (job_filename env req) env.now h7s
  have hmsg : "Conversion failed: " ++ ("FFmpeg error: " ++ stderr) =
      "Conversion failed: FFmpeg error: " ++ stderr := by
    rw [← String.append_assoc]
    rfl
  refine ⟨?_, ?_, ?_⟩ <;>
    simp [upload_file_post, h1, h2, h3, h4, h5, convert_video_to_gif, h6, sweep_all,
      hdel, hmsg]

/-- Witness for claim C5. -/
theorem conversion_failure_cleanup_witness :
    (upload_file_post ⟨1700000000, 0, fun s => s, fun _ => some "boom", 0⟩
      ⟨true, "clip.mp4", none, none, none, none⟩
      ⟨[], [], [], SessionState.cleared⟩).fst =
      UploadResponse.redirect_self ("Conversion failed: FFmpeg error: " ++ "boom")
    ∧ (upload_file_post ⟨1700000000, 0, fun s => s, fun _ => some "boom", 0⟩
      ⟨true, "clip.mp4", none, none, none, none⟩
      ⟨[], [], [], SessionState.cleared⟩).snd.sess = SessionState.cleared
    ∧ (upload_file_post ⟨1700000000, 0, fun s => s, fun _ => some "boom", 0⟩
      ⟨true, "clip.mp4", none, none, none, none⟩
      ⟨[], [], [], SessionState.cleared⟩).snd.uploads = clean_old_files 0 [] 24 :=
  conversion_failure_cleanup ⟨1700000000, 0, fun s => s, fun _ => some "boom", 0⟩
    ⟨true, "clip.mp4", none, none, none, none⟩ ⟨[], [], [], SessionState.cleared⟩
    "boom" 10 (none, none) rfl (by decide) (by decide) rfl rfl (fun _ => rfl)
    (fun e he => absurd he (List.not_mem_nil e))

/-- Claim C7, counterexample: a non-integer fps field makes the handler
raise an uncaught ValueError instead of re-rendering the form with a
validation message. -/
theorem upload_nonint_fps_raises_cex :
    (upload_file_post ⟨1700000000, 0, fun s => s, fun _ => none, 0⟩
      ⟨true, "clip.mp4", some "abc", none, none, none⟩
      ⟨[], [], [], SessionState.cleared⟩).fst = UploadResponse.raised "ValueError" := rfl

/-- Claim C7, amended: malformed start/end time text is caught — the
upload form is re-rendered with the validation flash and the state is
exactly the swept state, nothing persisted; a malformed (non-integer)
fps field, however, escapes the handler as an uncaught ValueError
(Flask answers 500; the process survives), likewise before any file is
persisted. -/
theorem malformed_form_input_behavior (env : UploadEnv) (req : UploadRequest) (st : AppState) :
    (∀ fps : Int, pyInt (req.fps_field.getD "10") = some fps →
      parse_times (req.start_time_field.getD "") (req.end_time_field.getD "") = none →
      req.hasVideoField = true → req.filename ≠ "" → allowed_file req.filename = true →
      upload_file_post env req st =
        (UploadResponse.redirect_self "Invalid time format. Please use seconds (e.g., 10.5)",
         sweep_all env.now st))
    ∧ (pyInt (req.fps_field.getD "10") = none →
      req.hasVideoField = true → req.filename ≠ "" → allowed_file req.filename = true →
      upload_file_post env req st =
        (UploadResponse.raised "ValueError", sweep_all env.now st)) := by
  constructor
  · intro fps hf ht h1 h2 h3
    simp [upload_file_post, h1, h2, h3, hf, ht]
  · intro hf h1 h2 h3
    simp [upload_file_post, h1, h2, h3, hf]

/-- Witness for claim C7's amended theorem. -/
theorem malformed_form_input_behavior_witness :
    upload_file_post ⟨1700000000, 0, fun s => s, fun _ => none, 0⟩
      ⟨true, "clip.mp4", none, none, some "abc", none⟩
      ⟨[], [], [], SessionState.cleared⟩ =
      (UploadResponse.redirect_self "Invalid time format. Please use seconds (e.g., 10.5)",
       sweep_all 0 ⟨[], [], [], SessionState.cleared⟩)
    ∧ upload_file_post ⟨1700000000, 0, fun s => s, fun _ => none, 0⟩
      ⟨true, "clip.mp4", some "xyz", none, none, none⟩
      ⟨[], [], [], SessionState.cleared⟩ =
      (UploadResponse.raised "ValueError",
       sweep_all 0 ⟨[], [], [], SessionState.cleared⟩) :=
  ⟨(malformed_form_input_behavior ⟨1700000000, 0, fun s => s, fun _ => none, 0⟩
      ⟨true, "clip.mp4", none, none, some "abc", none⟩
      ⟨[], [], [], SessionState.cleared⟩).1 10 rfl rfl rfl (by decide) (by decide),
   (malformed_form_input_behavior ⟨1700000000, 0, fun s => s, fun _ => none, 0⟩
      ⟨true, "clip.mp4", some "xyz", none, none, none⟩
      ⟨[], [], [], SessionState.cleared⟩).2 rfl rfl (by decide) (by decide)⟩

/-- Claim C8: a filename failing the extension allow-list makes the
handler answer immediately with the flash listing the allowed set, the
state is exactly the swept state — in particular nothing was written to
the upload directory, whose entries all predate the request. -/
theorem upload_rejects_bad_extension (env : UploadEnv) (req : UploadRequest) (st : AppState)
    (h1 : req.hasVideoField = true) (h2 : req.filename ≠ "")
    (h3 : allowed_file req.filename = false) :
    upload_file_post env req st =
      (UploadResponse.redirect_self
        ("Invalid file type. Allowed types: " ++ String.intercalate ", " ALLOWED_EXTENSIONS),
       sweep_all env.now st)
    ∧ ((sweep_all env.now st).uploads.all (fun e => decide (e ∈ st.uploads))) = true := by
  constructor
  · simp [upload_file_post, h1, h2, h3]
  · rw [List.all_eq_true]
    intro e he
    simp only [sweep_all] at he
    exact decide_eq_true (clean_old_files_subset env.now st.uploads 24 e he)

/-- Witness for claim C8. -/
theorem upload_rejects_bad_extension_witness :
    upload_file_post ⟨1700000000, 0, fun s => s, fun _ => none, 0⟩
      ⟨true, "clip.exe", none, none, none, none⟩ ⟨[], [], [], SessionState.cleared⟩ =
      (UploadResponse.redirect_self
        ("Invalid file type. Allowed types: " ++ String.intercalate ", " ALLOWED_EXTENSIONS),
       sweep_all 0 ⟨[], [], [], SessionState.cleared⟩)
    ∧ ((sweep_all 0 (⟨[], [], [], SessionState.cleared⟩ : AppState)).uploads.all
        (fun e => decide (e ∈ ([] : List DirEntry)))) = true :=
  ⟨(upload_rejects_bad_extension ⟨1700000000, 0, fun s => s, fun _ => none, 0⟩
      ⟨true, "clip.exe", none, none, none, none⟩
      ⟨[], [], [], SessionState.cleared⟩ rfl (by decide) (by decide)).1,
   (upload_rejects_bad_extension ⟨1700000000, 0, fun s => s, fun _ => none, 0⟩
      ⟨true, "clip.exe", none, none, none, none⟩
      ⟨[], [], [], SessionState.cleared⟩ rfl (by decide) (by decide)).2⟩
